import Mathlib

/-!
Verification of the MODIS MOD10A1 albedo analysis script
(src/MOD10A1_albedo_analysis.js) against its natural-language specification.

The script's computational core is embedded shallowly: Earth Engine images are
modelled per pixel, so a boolean mask image becomes a boolean-valued function of
the per-pixel inputs, a numeric band becomes a rational value, and the
dictionaries produced by reduceRegion become explicit parameters or lists of
per-pixel values.  JavaScript numbers are embedded as rationals; a float
computation whose JS result would be NaN is modelled explicitly (see autocorr).
-/

namespace Modis

/-! ### FractionClassifier: createFractionMasks (lines 144-152)

Each mask of createFractionMasks is a boolean image; per pixel it is a predicate
on the glacier fraction value.  Thresholds are [0.25, 0.50, 0.75, 0.90]. -/

/-- Mask glacier_0_25pct: fractionImage.gt(0).and(fractionImage.lt(0.25)). -/
def glacier_0_25pct (f : ℚ) : Prop := 0 < f ∧ f < 1/4

/-- Mask glacier_25_50pct: fractionImage.gte(0.25).and(fractionImage.lt(0.50)). -/
def glacier_25_50pct (f : ℚ) : Prop := 1/4 ≤ f ∧ f < 1/2

/-- Mask glacier_50_75pct: fractionImage.gte(0.50).and(fractionImage.lt(0.75)). -/
def glacier_50_75pct (f : ℚ) : Prop := 1/2 ≤ f ∧ f < 3/4

/-- Mask glacier_75_90pct: fractionImage.gte(0.75).and(fractionImage.lt(0.90)). -/
def glacier_75_90pct (f : ℚ) : Prop := 3/4 ≤ f ∧ f < 9/10

/-- Mask glacier_90_100pct: fractionImage.gte(0.90). -/
def glacier_90_100pct (f : ℚ) : Prop := 9/10 ≤ f

instance (f : ℚ) : Decidable (glacier_0_25pct f) := by unfold glacier_0_25pct; infer_instance

instance (f : ℚ) : Decidable (glacier_25_50pct f) := by unfold glacier_25_50pct; infer_instance

instance (f : ℚ) : Decidable (glacier_50_75pct f) := by unfold glacier_50_75pct; infer_instance

instance (f : ℚ) : Decidable (glacier_75_90pct f) := by unfold glacier_75_90pct; infer_instance

instance (f : ℚ) : Decidable (glacier_90_100pct f) := by unfold glacier_90_100pct; infer_instance

/-- Number of the five fraction masks that hold at a fraction value f. -/
def classCount (f : ℚ) : ℕ :=
  (if glacier_0_25pct f then 1 else 0) +
  (if glacier_25_50pct f then 1 else 0) +
  (if glacier_50_75pct f then 1 else 0) +
  (if glacier_75_90pct f then 1 else 0) +
  (if glacier_90_100pct f then 1 else 0)

/-- The class (1..5) a fraction value is assigned by the aggregation masks, or
none when no mask holds.  The masks are pairwise disjoint, so the if-chain
returns the unique mask containing f when one exists. -/
def maskClassIndex (f : ℚ) : Option ℕ :=
  if glacier_0_25pct f then some 1
  else if glacier_25_50pct f then some 2
  else if glacier_50_75pct f then some 3
  else if glacier_75_90pct f then some 4
  else if glacier_90_100pct f then some 5
  else none

/-- glacier_class_code of analyzePixelLevelData (lines 508-514): ee.Image(0)
followed by five sequential where-clauses, each overwriting the code where its
condition holds.  The conditions are applied in order with the later clause
winning, so the value is found by testing the clauses from the last backwards;
when no clause matches the initial 0 remains. -/
def glacier_class_code (f : ℚ) : ℕ :=
  if 9/10 ≤ f then 5
  else if 3/4 ≤ f ∧ f < 9/10 then 4
  else if 1/2 ≤ f ∧ f < 3/4 then 3
  else if 1/4 ≤ f ∧ f < 1/2 then 2
  else if 0 ≤ f ∧ f < 1/4 then 1
  else 0

/-! ### QualityMaskEvaluator: getBasicQAMask (lines 155-175),
getAlgorithmFlagsMask (lines 189-201), createStandardQualityMask (237-251) -/

/-- The four Basic QA level selector values offered by basicQASelect. -/
inductive BasicLevel
  | best
  | good
  | ok
  | all
deriving DecidableEq

/-- The quality ceiling each level accepts up to (spec section 4.1). -/
def levelCeiling : BasicLevel → ℕ
  | .best => 0
  | .good => 1
  | .ok => 2
  | .all => 3

/-- getBasicQAMask applied to one pixel whose Basic QA band value is basicQA:
a level-dependent quality mask, always conjoined with the exclusion of the
night (211) and ocean (239) sentinels. -/
def getBasicQAMask (basicQA : ℕ) (level : BasicLevel) : Bool :=
  let qualityMask : Bool :=
    match level with
    | .best => basicQA == 0
    | .good => decide (basicQA ≤ 1)
    | .ok => decide (basicQA ≤ 2)
    | .all => decide (basicQA ≤ 3)
  let excludeMask : Bool := (basicQA != 211) && (basicQA != 239)
  qualityMask && excludeMask

/-- The eight boolean exclusion toggles of a QA configuration. -/
structure FlagConfig where
  excludeInlandWater : Bool
  excludeVisibleScreenFail : Bool
  excludeNDSIScreenFail : Bool
  excludeTempHeightFail : Bool
  excludeSWIRAnomaly : Bool
  excludeProbablyCloudy : Bool
  excludeProbablyClear : Bool
  excludeHighSolarZenith : Bool

/-- QA_BIT_MAPPING (lines 178-187): each exclusion toggle paired with the bit
mask it tests (bit 0 through bit 7). -/
def QA_BIT_MAPPING (flags : FlagConfig) : List (Bool × ℕ) :=
  [(flags.excludeInlandWater, 1), (flags.excludeVisibleScreenFail, 2),
   (flags.excludeNDSIScreenFail, 4), (flags.excludeTempHeightFail, 8),
   (flags.excludeSWIRAnomaly, 16), (flags.excludeProbablyCloudy, 32),
   (flags.excludeProbablyClear, 64), (flags.excludeHighSolarZenith, 128)]

/-- getAlgorithmFlagsMask at one pixel whose Algorithm Flags band value is
algFlags: starting from a constant-1 mask, each toggled flag conjoins the test
that the corresponding bit is clear. -/
def getAlgorithmFlagsMask (algFlags : ℕ) (flags : FlagConfig) : Bool :=
  (QA_BIT_MAPPING flags).foldl
    (fun mask m => if m.1 then mask && (Nat.land algFlags m.2 == 0) else mask) true

/-- The client-side flag gate of the QA inspector (Map.onClick, lines
1185-1195): passesFlags starts true and is only modified when the sampled
algorithmFlags value is present (not undefined); each checked exclusion whose
bit is set forces it to false. -/
def clientPassesFlags (algFlags : Option ℕ) (flags : FlagConfig) : Bool :=
  match algFlags with
  | none => true
  | some v =>
    let p := true
    let p := if flags.excludeInlandWater && (Nat.land v 1 != 0) then false else p
    let p := if flags.excludeVisibleScreenFail && (Nat.land v 2 != 0) then false else p
    let p := if flags.excludeNDSIScreenFail && (Nat.land v 4 != 0) then false else p
    let p := if flags.excludeTempHeightFail && (Nat.land v 8 != 0) then false else p
    let p := if flags.excludeSWIRAnomaly && (Nat.land v 16 != 0) then false else p
    let p := if flags.excludeProbablyCloudy && (Nat.land v 32 != 0) then false else p
    let p := if flags.excludeProbablyClear && (Nat.land v 64 != 0) then false else p
    if flags.excludeHighSolarZenith && (Nat.land v 128 != 0) then false else p

/-- createComprehensiveQualityMask (lines 220-226): conjunction of the basic
gate and the algorithm-flag gate. -/
def createComprehensiveQualityMask (basicQA algFlags : ℕ) (basicLevel : BasicLevel)
    (flags : FlagConfig) : Bool :=
  getBasicQAMask basicQA basicLevel && getAlgorithmFlagsMask algFlags flags

/-- The fixed export QA configuration built inside createStandardQualityMask
(lines 238-248): every exclusion set except probably-clear (bit 6). -/
def standardFlagConfig : FlagConfig :=
  { excludeInlandWater := true
    excludeVisibleScreenFail := true
    excludeNDSIScreenFail := true
    excludeTempHeightFail := true
    excludeSWIRAnomaly := true
    excludeProbablyCloudy := true
    excludeProbablyClear := false
    excludeHighSolarZenith := true }

/-- createStandardQualityMask (lines 237-251): the comprehensive mask at
basicLevel good with the standard flag configuration. -/
def createStandardQualityMask (basicQA algFlags : ℕ) : Bool :=
  createComprehensiveQualityMask basicQA algFlags .good standardFlagConfig

/-! ### AggregationReducer: the minimum-pixel validation of the annual path
(lines 349-358) and the daily path (lines 408-416, 419-441).  The region
reduction itself is delegated to the external geospatial service; it is
modelled by the textbook reducers over the list of unmasked per-pixel values,
with null (none) for an empty region. -/

/-- The per-class dictionary entries the annual reduceRegion call returns:
mean, stdDev and count for one class band. -/
structure ReducedStats where
  mean : ℚ
  stdDev : ℚ
  count : ℕ

/-- One class group of the annual export row. -/
structure AnnualClassRecord where
  mean : Option ℚ
  stdDev : Option ℚ
  count : ℕ
  sufficientPixels : Bool

/-- Lines 349-358: class_sufficient is count gte MIN_PIXEL_THRESHOLD; mean and
stdDev are passed through when sufficient and set to null otherwise; the count
is always reported. -/
def annualClassRecord (stats : ReducedStats) (minPixelThreshold : ℕ) : AnnualClassRecord :=
  let class_sufficient := decide (minPixelThreshold ≤ stats.count)
  { mean := if class_sufficient then some stats.mean else none
    stdDev := if class_sufficient then some stats.stdDev else none
    count := stats.count
    sufficientPixels := class_sufficient }

/-- ee.Reducer.mean over the per-pixel values of a class: null on an empty
region, the arithmetic mean otherwise. -/
def reduceMean (vs : List ℚ) : Option ℚ :=
  if vs.length = 0 then none else some (vs.sum / (vs.length : ℚ))

/-- Median of an already sorted list: the middle element, averaging the two
central elements when the length is even.  This is the convention used by the
script's sensSlope (lines 1443-1445) and serves as the model of
ee.Reducer.median. -/
def medianOfSorted (l : List ℚ) : ℚ :=
  if l.length % 2 = 0 then (l.getD (l.length / 2 - 1) 0 + l.getD (l.length / 2) 0) / 2
  else l.getD (l.length / 2) 0

/-- ee.Reducer.median over the per-pixel values of a class: null on an empty
region. -/
def reduceMedian (vs : List ℚ) : Option ℚ :=
  if vs.length = 0 then none else some (medianOfSorted (vs.insertionSort (· ≤ ·)))

/-- One class group of the daily export row. -/
structure DailyClassRecord where
  mean : Option ℚ
  median : Option ℚ
  pixel_count : ℕ
  sufficient_pixels : Bool

/-- Lines 408-416: per-class daily statistics with minimum-pixel validation,
built from the list of unmasked per-pixel albedo values of the class. -/
def dailyClassRecord (vs : List ℚ) (minPixelThreshold : ℕ) : DailyClassRecord :=
  let class_count := vs.length
  let class_sufficient := decide (minPixelThreshold ≤ class_count)
  { mean := if class_sufficient then reduceMean vs else none
    median := if class_sufficient then reduceMedian vs else none
    pixel_count := class_count
    sufficient_pixels := class_sufficient }

/-- Lines 429-434: the daily total pixel count; the sum reduction may return
null on a day with no data, in which case the count falls back to 0. -/
def total_filtered_pixels (reduced : Option ℕ) : ℕ :=
  match reduced with
  | none => 0
  | some v => v

/-- Line 441: sufficient_total_pixels is the coerced total gte
MIN_PIXEL_THRESHOLD. -/
def sufficient_total_pixels (reduced : Option ℕ) (minPixelThreshold : ℕ) : Bool :=
  decide (minPixelThreshold ≤ total_filtered_pixels reduced)

/-! ### TrendStatistics: the deep statistical analysis callback
(dataArrays.evaluate, lines 1419-1586). -/

/-- All pairwise slopes (v_j - v_i)/(y_j - y_i) for 0 ≤ i < j < n in the
enumeration order of the script's double loop (lines 1436-1441). -/
def pairwiseSlopes (years vals : List ℚ) : List ℚ :=
  (List.range years.length).flatMap (fun i =>
    (List.range' (i+1) (years.length - (i+1))).map (fun j =>
      (vals.getD j 0 - vals.getD i 0) / (years.getD j 0 - years.getD i 0)))

/-- sensSlope (lines 1442-1445): sort the pairwise slopes ascending and take
the middle element, averaging the two central elements for an even count. -/
def sensSlope (years vals : List ℚ) : ℚ :=
  medianOfSorted ((pairwiseSlopes years vals).insertionSort (· ≤ ·))

/-- Spec-side definition: the median of a multiset of rationals, read off its
sorted enumeration.  Used to state that sensSlope computes the median of the
full multiset of pairwise slopes, independent of enumeration order. -/
def medianOfMultiset (s : Multiset ℚ) : ℚ :=
  medianOfSorted (s.sort (· ≤ ·))

/-- The three sums accumulated by the lag-1 autocorrelation loop (lines
1540-1551): the covariance numerator and the two squared-deviation
denominators of the original and the 1-shifted series. -/
structure AutocorrSums where
  numerator : ℚ
  denom1 : ℚ
  denom2 : ℚ

/-- Lines 1541-1551: x1 is the series without its last element, x2 without its
first; the loop accumulates numerator, denom1 and denom2 over the paired
entries. -/
def autocorrSums (vs : List ℚ) : AutocorrSums :=
  let x1 := vs.take (vs.length - 1)
  let x2 := vs.drop 1
  let mean1 := x1.sum / (x1.length : ℚ)
  let mean2 := x2.sum / (x2.length : ℚ)
  { numerator := ((x1.zip x2).map (fun p => (p.1 - mean1) * (p.2 - mean2))).sum
    denom1 := (x1.map (fun x => (x - mean1) ^ 2)).sum
    denom2 := (x2.map (fun x => (x - mean2) ^ 2)).sum }

/-- Line 1553 computes autocorr = numerator / Math.sqrt(denom1 * denom2) in
JavaScript floating point.  That quotient is the float NaN exactly when both
the numerator and the square-rooted denominator are zero (0/0); a zero
denominator with nonzero numerator would give an infinity.  This predicate
holds exactly when the computed autocorrelation is NaN. -/
def autocorrIsNaN (vs : List ℚ) : Bool :=
  decide ((autocorrSums vs).numerator = 0 ∧
    (autocorrSums vs).denom1 * (autocorrSums vs).denom2 = 0)

/-- Classification labels of the climate-signal comparison (lines 1580-1581). -/
inductive ClimateSignal
  | STRONG
  | MODERATE
  | WEAK
deriving DecidableEq

/-- The quantities printed by the climate-signal analysis. -/
structure SplitPeriodReport where
  earlyMean : ℚ
  lateMean : ℚ
  periodDiff : ℚ
  relativeChange : ℚ
  signal : ClimateSignal
deriving DecidableEq

/-- Climate signal analysis (lines 1566-1582): runs only when n ≥ 10; splits
the series into slice(0, splitPoint) and slice(-splitPoint) with
splitPoint = floor(n/2), compares the two half means and classifies the
relative change. -/
def climateSignalAnalysis (vs : List ℚ) : Option SplitPeriodReport :=
  if 10 ≤ vs.length then
    let splitPoint := vs.length / 2
    let earlyPeriod := vs.take splitPoint
    let latePeriod := vs.drop (vs.length - splitPoint)
    let earlyMean := earlyPeriod.sum / (earlyPeriod.length : ℚ)
    let lateMean := latePeriod.sum / (latePeriod.length : ℚ)
    let periodDiff := lateMean - earlyMean
    let relativeChange := periodDiff / earlyMean * 100
    some { earlyMean := earlyMean
           lateMean := lateMean
           periodDiff := periodDiff
           relativeChange := relativeChange
           signal := if 5 < |relativeChange| then .STRONG
                     else if 2 < |relativeChange| then .MODERATE
                     else .WEAK }
  else none

end Modis

namespace Modis

/-- Helper: evaluate classCount from a decision for each of the five masks. -/
theorem classCount_eval (f : ℚ)
    (e1 : (if glacier_0_25pct f then (1:ℕ) else 0) = a1)
    (e2 : (if glacier_25_50pct f then (1:ℕ) else 0) = a2)
    (e3 : (if glacier_50_75pct f then (1:ℕ) else 0) = a3)
    (e4 : (if glacier_75_90pct f then (1:ℕ) else 0) = a4)
    (e5 : (if glacier_90_100pct f then (1:ℕ) else 0) = a5) :
    classCount f = a1 + a2 + a3 + a4 + a5 := by
  unfold classCount
  rw [e1, e2, e3, e4, e5]

/-- Claim C1 counterexample: the fraction value 0 lies in [0,1] but is assigned
by the masks of createFractionMasks to no class at all (the first mask requires
fraction strictly greater than 0), refuting that every f in [0,1] is assigned
to exactly one of the 5 classes. -/
theorem classify_zero_in_no_class :
    (0:ℚ) ≤ 0 ∧ (0:ℚ) ≤ 1 ∧ classCount 0 = 0 := by
  refine ⟨le_refl 0, by norm_num, ?_⟩
  have := classCount_eval 0
    (if_neg (fun hc => absurd hc.1 (by norm_num)))
    (if_neg (fun hc => absurd hc.1 (by norm_num)))
    (if_neg (fun hc => absurd hc.1 (by norm_num)))
    (if_neg (fun hc => absurd hc.1 (by norm_num)))
    (if_neg (by norm_num [glacier_90_100pct]))
  simpa using this

/-- Claim C1 (amended): for every glacier-fraction value f with 0 < f ≤ 1 the
fraction classification assigns f to exactly one of the 5 coverage classes,
with the boundaries half-open so that 0.25 falls in the second class, 0.8999 in
the fourth class and 0.90 in the fifth class. -/
theorem classify_exactly_one (f : ℚ) (h0 : 0 < f) (h1 : f ≤ 1) :
    classCount f = 1 ∧
    maskClassIndex (1/4) = some 2 ∧
    maskClassIndex (8999/10000) = some 4 ∧
    maskClassIndex (9/10) = some 5 := by
  refine ⟨?_, ?_, ?_, ?_⟩
  · rcases lt_or_le f (1/4) with hq | hq
    · have := classCount_eval f (if_pos ⟨h0, hq⟩)
        (if_neg (fun hc => absurd hc.1 (not_le.mpr hq)))
        (if_neg (fun hc => absurd hc.1 (not_le.mpr (by linarith))))
        (if_neg (fun hc => absurd hc.1 (not_le.mpr (by linarith))))
        (if_neg (not_le.mpr (by linarith)))
      simpa using this
    · rcases lt_or_le f (1/2) with hh | hh
      · have := classCount_eval f
          (if_neg (fun hc => absurd hc.2 (not_lt.mpr hq)))
          (if_pos ⟨hq, hh⟩)
          (if_neg (fun hc => absurd hc.1 (not_le.mpr hh)))
          (if_neg (fun hc => absurd hc.1 (not_le.mpr (by linarith))))
          (if_neg (not_le.mpr (by linarith)))
        simpa using this
      · rcases lt_or_le f (3/4) with hh3 | hh3
        · have := classCount_eval f
            (if_neg (fun hc => absurd hc.2 (not_lt.mpr (by linarith))))
            (if_neg (fun hc => absurd hc.2 (not_lt.mpr hh)))
            (if_pos ⟨hh, hh3⟩)
            (if_neg (fun hc => absurd hc.1 (not_le.mpr hh3)))
            (if_neg (not_le.mpr (by linarith)))
          simpa using this
        · rcases lt_or_le f (9/10) with hh4 | hh4
          · have := classCount_eval f
              (if_neg (fun hc => absurd hc.2 (not_lt.mpr (by linarith))))
              (if_neg (fun hc => absurd hc.2 (not_lt.mpr (by linarith))))
              (if_neg (fun hc => absurd hc.2 (not_lt.mpr hh3)))
              (if_pos ⟨hh3, hh4⟩)
              (if_neg (not_le.mpr hh4))
            simpa using this
          · have := classCount_eval f
              (if_neg (fun hc => absurd hc.2 (not_lt.mpr (by linarith))))
              (if_neg (fun hc => absurd hc.2 (not_lt.mpr (by linarith))))
              (if_neg (fun hc => absurd hc.2 (not_lt.mpr (by linarith))))
              (if_neg (fun hc => absurd hc.2 (not_lt.mpr hh4)))
              (if_pos hh4)
            simpa using this
  · unfold maskClassIndex
    rw [if_neg (fun hc => absurd hc.2 (by norm_num)), if_pos (by constructor <;> norm_num)]
  · unfold maskClassIndex
    rw [if_neg (fun hc => absurd hc.2 (by norm_num)),
      if_neg (fun hc => absurd hc.2 (by norm_num)),
      if_neg (fun hc => absurd hc.2 (by norm_num)),
      if_pos (by constructor <;> norm_num)]
  · unfold maskClassIndex
    rw [if_neg (fun hc => absurd hc.2 (by norm_num)),
      if_neg (fun hc => absurd hc.2 (by norm_num)),
      if_neg (fun hc => absurd hc.2 (by norm_num)),
      if_neg (fun hc => absurd hc.2 (by norm_num)),
      if_pos (by norm_num [glacier_90_100pct])]

/-- Claim C1 witness: the amended claim instantiated at the concrete fraction
value 0.3. -/
theorem classify_exactly_one_witness :
    classCount (3/10 : ℚ) = 1 ∧
    maskClassIndex (1/4) = some 2 ∧
    maskClassIndex (8999/10000) = some 4 ∧
    maskClassIndex (9/10) = some 5 :=
  classify_exactly_one (3/10) (by norm_num) (by norm_num)

/-- Claim C3: when the sampled algorithmFlags value is absent (undefined), the
client-side flag gate of the QA inspector accepts the observation for every
exclusion configuration (absence of metadata is treated permissively, never as
a rejection). -/
theorem missing_flags_permissive (flags : FlagConfig) :
    clientPassesFlags none flags = true := rfl

/-- Claim C4: the basic-quality gate rejects basicQA values 211 (night) and
239 (ocean) unconditionally at every level; for every other basicQA value it
accepts exactly when basicQA is at most the ceiling of the configured level
(best 0, good 1, ok 2, all 3). -/
theorem basicQA_gate (qa : ℕ) (level : BasicLevel) :
    ((qa = 211 ∨ qa = 239) → getBasicQAMask qa level = false) ∧
    (qa ≠ 211 → qa ≠ 239 → (getBasicQAMask qa level = true ↔ qa ≤ levelCeiling level)) := by
  constructor
  · rintro (rfl | rfl) <;> cases level <;> rfl
  · intro h1 h2
    cases level <;>
      simp [getBasicQAMask, levelCeiling, h1, h2]

/-- Claim C4 witness: the gate evaluated at the night sentinel under the most
permissive level, and at a good-quality observation under the good level. -/
theorem basicQA_gate_witness :
    getBasicQAMask 211 .all = false ∧ getBasicQAMask 1 .good = true :=
  ⟨(basicQA_gate 211 .all).1 (Or.inl rfl),
   ((basicQA_gate 1 .good).2 (by norm_num) (by norm_num)).mpr (by norm_num [levelCeiling])⟩

/-- Claim C5: under the standard export QA configuration (basicLevel good, all
exclusions set except probably-clear), an observation with basicQA 1 and
algorithmFlags 32 (only bit 5, probably cloudy) is rejected, while every
observation with basicQA at most 1 whose algorithmFlags value is 64 (only bit
6, probably clear) is accepted. -/
theorem standard_mask_cloud_gate :
    createStandardQualityMask 1 32 = false ∧
    (∀ qa : ℕ, qa ≤ 1 → createStandardQualityMask qa 64 = true) := by
  constructor
  · rfl
  · intro qa h
    interval_cases qa <;> rfl

/-- Claim C5 witness: the accepting branch instantiated at basicQA 1. -/
theorem standard_mask_cloud_gate_witness :
    createStandardQualityMask 1 64 = true :=
  standard_mask_cloud_gate.2 1 (by norm_num)

/-- Claim C9: for every glacier-fraction value f with 0 < f ≤ 1, the class
assigned by the aggregation masks of createFractionMasks coincides with the
class encoded by glacier_class_code in the pixel-level export path; at f = 0
the two paths diverge: the masks assign no class while glacier_class_code
assigns class 1. -/
theorem mask_class_agrees_with_pixel_code (f : ℚ) (h0 : 0 < f) (h1 : f ≤ 1) :
    maskClassIndex f = some (glacier_class_code f) ∧
    maskClassIndex 0 = none ∧
    glacier_class_code 0 = 1 := by
  refine ⟨?_, ?_, ?_⟩
  · rcases lt_or_le f (1/4) with hq | hq
    · unfold maskClassIndex glacier_class_code
      rw [if_pos ⟨h0, hq⟩,
        if_neg (not_le.mpr (by linarith)),
        if_neg (fun hc => absurd hc.1 (not_le.mpr (by linarith))),
        if_neg (fun hc => absurd hc.1 (not_le.mpr (by linarith))),
        if_neg (fun hc => absurd hc.1 (not_le.mpr hq)),
        if_pos ⟨h0.le, hq⟩]
    · rcases lt_or_le f (1/2) with hh | hh
      · unfold maskClassIndex glacier_class_code
        rw [if_neg (fun hc => absurd hc.2 (not_lt.mpr hq)),
          if_pos ⟨hq, hh⟩,
          if_neg (not_le.mpr (by linarith)),
          if_neg (fun hc => absurd hc.1 (not_le.mpr (by linarith))),
          if_neg (fun hc => absurd hc.1 (not_le.mpr hh)),
          if_pos ⟨hq, hh⟩]
      · rcases lt_or_le f (3/4) with hh3 | hh3
        · unfold maskClassIndex glacier_class_code
          rw [if_neg (fun hc => absurd hc.2 (not_lt.mpr (by linarith))),
            if_neg (fun hc => absurd hc.2 (not_lt.mpr hh)),
            if_pos ⟨hh, hh3⟩,
            if_neg (not_le.mpr (by linarith)),
            if_neg (fun hc => absurd hc.1 (not_le.mpr hh3)),
            if_pos ⟨hh, hh3⟩]
        · rcases lt_or_le f (9/10) with hh4 | hh4
          · unfold maskClassIndex glacier_class_code
            rw [if_neg (fun hc => absurd hc.2 (not_lt.mpr (by linarith))),
              if_neg (fun hc => absurd hc.2 (not_lt.mpr (by linarith))),
              if_neg (fun hc => absurd hc.2 (not_lt.mpr hh3)),
              if_pos ⟨hh3, hh4⟩,
              if_neg (not_le.mpr hh4),
              if_pos ⟨hh3, hh4⟩]
          · unfold maskClassIndex glacier_class_code
            rw [if_neg (fun hc => absurd hc.2 (not_lt.mpr (by linarith))),
              if_neg (fun hc => absurd hc.2 (not_lt.mpr (by linarith))),
              if_neg (fun hc => absurd hc.2 (not_lt.mpr (by linarith))),
              if_neg (fun hc => absurd hc.2 (not_lt.mpr hh4)),
              if_pos hh4,
              if_pos (show glacier_90_100pct f from hh4)]
  · unfold maskClassIndex
    rw [if_neg (fun hc => absurd hc.1 (by norm_num)),
      if_neg (fun hc => absurd hc.1 (by norm_num)),
      if_neg (fun hc => absurd hc.1 (by norm_num)),
      if_neg (fun hc => absurd hc.1 (by norm_num)),
      if_neg (by norm_num [glacier_90_100pct])]
  · unfold glacier_class_code
    rw [if_neg (by norm_num),
      if_neg (fun hc => absurd hc.1 (by norm_num)),
      if_neg (fun hc => absurd hc.1 (by norm_num)),
      if_neg (fun hc => absurd hc.1 (by norm_num)),
      if_pos ⟨le_refl 0, by norm_num⟩]

/-- Claim C9 witness: the agreement instantiated at the concrete fraction
value 0.6, where both paths give class 3. -/
theorem mask_class_agrees_with_pixel_code_witness :
    maskClassIndex (3/5 : ℚ) = some (glacier_class_code (3/5)) ∧
    maskClassIndex 0 = none ∧
    glacier_class_code 0 = 1 :=
  mask_class_agrees_with_pixel_code (3/5) (by norm_num) (by norm_num)

/-- Claim C2: in both the annual and the daily aggregation the sufficiency
flag is true exactly when the class pixel count reaches the minimum-pixel
threshold; below the threshold the mean and the stdDev or median are null
(never zero, never the computed value); at or above it the mean is the
computed value (for the daily path, the arithmetic mean of the class pixel
values); the count itself is always reported. -/
theorem sufficiency_null_rule (stats : ReducedStats) (vs : List ℚ) (minPixels : ℕ) :
    ((annualClassRecord stats minPixels).sufficientPixels = true ↔ minPixels ≤ stats.count) ∧
    (stats.count < minPixels →
      (annualClassRecord stats minPixels).mean = none ∧
      (annualClassRecord stats minPixels).stdDev = none) ∧
    (minPixels ≤ stats.count →
      (annualClassRecord stats minPixels).mean = some stats.mean ∧
      (annualClassRecord stats minPixels).stdDev = some stats.stdDev) ∧
    (annualClassRecord stats minPixels).count = stats.count ∧
    ((dailyClassRecord vs minPixels).sufficient_pixels = true ↔ minPixels ≤ vs.length) ∧
    (vs.length < minPixels →
      (dailyClassRecord vs minPixels).mean = none ∧
      (dailyClassRecord vs minPixels).median = none) ∧
    (minPixels ≤ vs.length → 0 < vs.length →
      (dailyClassRecord vs minPixels).mean = some (vs.sum / (vs.length : ℚ))) ∧
    (dailyClassRecord vs minPixels).pixel_count = vs.length := by
  refine ⟨?_, ?_, ?_, rfl, ?_, ?_, ?_, rfl⟩
  · simp [annualClassRecord]
  · intro h
    have hn : ¬ minPixels ≤ stats.count := not_le.mpr h
    simp [annualClassRecord, hn]
  · intro h
    simp [annualClassRecord, h]
  · simp [dailyClassRecord]
  · intro h
    have hn : ¬ minPixels ≤ vs.length := not_le.mpr h
    simp [dailyClassRecord, hn]
  · intro h hpos
    have hz : vs.length ≠ 0 := Nat.pos_iff_ne_zero.mp hpos
    simp [dailyClassRecord, reduceMean, h, hz]

/-- Claim C2 witness: the rule instantiated at a class with 8 of 10 required
pixels (mean withheld) and at a class with 12 of 10 (mean reported), and at
daily classes with 2 of 2 pixel values (mean computed) and 1 of 10 (median
withheld). -/
theorem sufficiency_null_rule_witness :
    (annualClassRecord ⟨7/10, 1/100, 8⟩ 10).mean = none ∧
    (annualClassRecord ⟨7/10, 1/100, 12⟩ 10).mean = some (7/10) ∧
    (dailyClassRecord [1/2, 3/4] 2).mean =
      some (([1/2, 3/4] : List ℚ).sum / ((([1/2, 3/4] : List ℚ).length : ℕ) : ℚ)) ∧
    (dailyClassRecord [1/2] 10).median = none :=
  ⟨((sufficiency_null_rule ⟨7/10, 1/100, 8⟩ [] 10).2.1 (by norm_num)).1,
   ((sufficiency_null_rule ⟨7/10, 1/100, 12⟩ [] 10).2.2.1 (by norm_num)).1,
   (sufficiency_null_rule ⟨0, 0, 0⟩ [1/2, 3/4] 2).2.2.2.2.2.2.1 (by norm_num) (by norm_num),
   ((sufficiency_null_rule ⟨0, 0, 0⟩ [1/2] 10).2.2.2.2.2.1 (by norm_num)).2⟩

/-- Claim C10: the daily total_filtered_pixels is never null: a null sum
reduction is coerced to 0, every non-null value passes through unchanged, and
on a null reduction sufficient_total_pixels is false whenever the
minimum-pixel threshold is positive. -/
theorem total_pixels_null_fallback (minPixels : ℕ) (hpos : 0 < minPixels) :
    total_filtered_pixels none = 0 ∧
    (∀ v : ℕ, total_filtered_pixels (some v) = v) ∧
    sufficient_total_pixels none minPixels = false := by
  refine ⟨rfl, fun v => rfl, ?_⟩
  simp only [sufficient_total_pixels, total_filtered_pixels, decide_eq_false_iff_not]
  omega

/-- Claim C10 witness: the fallback at the script's default threshold of 10
pixels. -/
theorem total_pixels_null_fallback_witness :
    total_filtered_pixels none = 0 ∧
    (∀ v : ℕ, total_filtered_pixels (some v) = v) ∧
    sufficient_total_pixels none 10 = false :=
  total_pixels_null_fallback 10 (by norm_num)

/-- Claim C8: the split-period comparison runs exactly when the series has at
least 10 entries; it then takes the first and the last floor(n/2) values,
computes the mean of each half, the difference lateMean minus earlyMean, the
relative change (difference/earlyMean)·100, and classifies STRONG when the
absolute relative change exceeds 5, MODERATE when it exceeds 2, WEAK
otherwise. -/
theorem split_period_spec (vs : List ℚ) :
    (vs.length < 10 → climateSignalAnalysis vs = none) ∧
    (10 ≤ vs.length →
      ∃ r, climateSignalAnalysis vs = some r ∧
        r.earlyMean = (vs.take (vs.length / 2)).sum / ((vs.length / 2 : ℕ) : ℚ) ∧
        r.lateMean = ((vs.reverse.take (vs.length / 2)).reverse).sum / ((vs.length / 2 : ℕ) : ℚ) ∧
        r.periodDiff = r.lateMean - r.earlyMean ∧
        r.relativeChange = r.periodDiff / r.earlyMean * 100 ∧
        r.signal = (if 5 < |r.relativeChange| then .STRONG
                    else if 2 < |r.relativeChange| then .MODERATE else .WEAK)) := by
  constructor
  · intro h
    unfold climateSignalAnalysis
    rw [if_neg (not_le.mpr h)]
  · intro h
    have hearly : (vs.take (vs.length / 2)).length = vs.length / 2 := by
      rw [List.length_take]
      omega
    have hlatelist : vs.drop (vs.length - vs.length / 2) = (vs.reverse.take (vs.length / 2)).reverse := by
      rw [← List.rtake_eq_reverse_take_reverse]
      rfl
    have hlate : (vs.drop (vs.length - vs.length / 2)).length = vs.length / 2 := by
      rw [List.length_drop]
      omega
    unfold climateSignalAnalysis
    rw [if_pos h]
    refine ⟨_, rfl, ?_, ?_, rfl, rfl, rfl⟩
    · rw [hearly]
    · rw [hlate, hlatelist]

/-- Claim C8 witness: the analysis skipped on a 9-year series, executed on a
10-year series. -/
theorem split_period_spec_witness :
    climateSignalAnalysis (List.replicate 9 (1 : ℚ)) = none ∧
    ∃ r, climateSignalAnalysis (List.replicate 10 (1 : ℚ)) = some r :=
  ⟨(split_period_spec (List.replicate 9 1)).1 (by simp),
   ((split_period_spec (List.replicate 10 1)).2 (by simp)).imp (fun r hr => hr.1)⟩

/-- Helper: on a constant series the autocorrelation loop accumulates three
zero sums, because both shifted subseries are constant and equal to their own
means. -/
theorem autocorrSums_replicate (c : ℚ) (n : ℕ) (hn : 2 ≤ n) :
    autocorrSums (List.replicate n c) = ⟨0, 0, 0⟩ := by
  have hmin : min (n - 1) n = n - 1 := by omega
  have hcast : ((n - 1 : ℕ) : ℚ) ≠ 0 := Nat.cast_ne_zero.mpr (by omega)
  simp only [autocorrSums, List.length_replicate, List.take_replicate,
    List.drop_replicate, hmin, List.sum_replicate, nsmul_eq_mul,
    mul_div_cancel_left₀ c hcast, List.zip_replicate', List.map_replicate]
  simp

/-- Claim C7: on a constant (zero-variance) input series the lag-1
autocorrelation computation reaches the division 0 / Math.sqrt(0 · 0) — the
float NaN, an undefined numeric value — rather than a defined result,
evaluated at a constant 3-year and a constant 10-year series. -/
theorem autocorr_constant_is_nan :
    autocorrIsNaN (List.replicate 3 (1/2 : ℚ)) = true ∧
    autocorrIsNaN (List.replicate 10 (7/10 : ℚ)) = true := by
  constructor
  · simp only [autocorrIsNaN, autocorrSums_replicate (1/2 : ℚ) 3 (by norm_num)]
    norm_num
  · simp only [autocorrIsNaN, autocorrSums_replicate (7/10 : ℚ) 10 (by norm_num)]
    norm_num

/-- Helper: every member of pairwiseSlopes is a two-point slope of the series
at some index pair i < j < n. -/
theorem mem_pairwiseSlopes {years vals : List ℚ} {x : ℚ}
    (hx : x ∈ pairwiseSlopes years vals) :
    ∃ i j, i < j ∧ j < years.length ∧
      x = (vals.getD j 0 - vals.getD i 0) / (years.getD j 0 - years.getD i 0) := by
  simp only [pairwiseSlopes, List.mem_flatMap, List.mem_map, List.mem_range,
    List.mem_range'_1] at hx
  obtain ⟨i, hi, j, ⟨hj1, hj2⟩, hxe⟩ := hx
  exact ⟨i, j, by omega, by omega, hxe.symm⟩

/-- Helper: a series with at least two entries yields at least one pairwise
slope. -/
theorem pairwiseSlopes_ne_nil {years vals : List ℚ} (h2 : 2 ≤ years.length) :
    pairwiseSlopes years vals ≠ [] := by
  apply List.ne_nil_of_mem
    (a := (vals.getD 1 0 - vals.getD 0 0) / (years.getD 1 0 - years.getD 0 0))
  simp only [pairwiseSlopes, List.mem_flatMap, List.mem_map, List.mem_range,
    List.mem_range'_1]
  exact ⟨0, by omega, 1, ⟨by omega, by omega⟩, rfl⟩

/-- Helper: the sorted-middle median of a nonempty list whose members all
equal b is b. -/
theorem median_of_const {l : List ℚ} {b : ℚ} (hne : l ≠ [])
    (hall : ∀ x ∈ l, x = b) :
    medianOfSorted (l.insertionSort (· ≤ ·)) = b := by
  have hperm : List.Perm (l.insertionSort (· ≤ ·)) l := List.perm_insertionSort _ _
  have hlen : (l.insertionSort (· ≤ ·)).length = l.length := hperm.length_eq
  have hpos : 0 < (l.insertionSort (· ≤ ·)).length := by
    rw [hlen]
    exact List.length_pos.mpr hne
  have hget : ∀ k, k < (l.insertionSort (· ≤ ·)).length →
      (l.insertionSort (· ≤ ·)).getD k 0 = b := by
    intro k hk
    rw [List.getD_eq_getElem?_getD, List.getElem?_eq_getElem hk, Option.getD_some]
    exact hall _ (hperm.mem_iff.mp (List.getElem_mem hk))
  unfold medianOfSorted
  by_cases hpar : (l.insertionSort (· ≤ ·)).length % 2 = 0
  · rw [if_pos hpar, hget _ (by omega), hget _ (Nat.div_lt_self hpos (by norm_num))]
    norm_num
  · rw [if_neg hpar, hget _ (Nat.div_lt_self hpos (by norm_num))]

/-- Claim C6: sensSlope computes the median of the full multiset of pairwise
slopes (v_j - v_i)/(y_j - y_i) over index pairs i < j, averaging the two
central values for an even count; consequently for every perfectly linear
series v = a + b·year over at least two pairwise-distinct years the computed
slope is exactly b. -/
theorem sens_slope_spec :
    (∀ years vals : List ℚ,
       sensSlope years vals = medianOfMultiset ↑(pairwiseSlopes years vals)) ∧
    (∀ (years vals : List ℚ) (a b : ℚ),
       vals.length = years.length → 2 ≤ years.length →
       years.Pairwise (· ≠ ·) →
       (∀ i, i < years.length → vals.getD i 0 = a + b * years.getD i 0) →
       sensSlope years vals = b) := by
  constructor
  · intro years vals
    unfold sensSlope medianOfMultiset
    congr 1
    have hp : List.Perm ((pairwiseSlopes years vals).insertionSort (· ≤ ·))
        (Multiset.sort (· ≤ ·) ↑(pairwiseSlopes years vals)) :=
      (List.perm_insertionSort _ _).trans
        (Multiset.coe_eq_coe.mp (Multiset.sort_eq _ _)).symm
    exact List.eq_of_perm_of_sorted hp (List.sorted_insertionSort _ _)
      (Multiset.sort_sorted _ _)
  · intro years vals a b _hlen h2 hdist hlin
    apply median_of_const (pairwiseSlopes_ne_nil h2)
    intro x hx
    obtain ⟨i, j, hij, hjn, hxe⟩ := mem_pairwiseSlopes hx
    have hin : i < years.length := lt_trans hij hjn
    have hyne : years.getD i 0 ≠ years.getD j 0 := by
      have hne := List.pairwise_iff_getElem.mp hdist i j hin hjn hij
      rw [List.getD_eq_getElem?_getD, List.getElem?_eq_getElem hin, Option.getD_some,
        List.getD_eq_getElem?_getD, List.getElem?_eq_getElem hjn, Option.getD_some]
      exact hne
    have hsub : years.getD j 0 - years.getD i 0 ≠ 0 := sub_ne_zero.mpr (Ne.symm hyne)
    rw [hxe, hlin j hjn, hlin i hin]
    have hfac : a + b * years.getD j 0 - (a + b * years.getD i 0)
        = b * (years.getD j 0 - years.getD i 0) := by ring
    rw [hfac, mul_div_assoc, div_self hsub, mul_one]

/-- Claim C6 witness: the linear-series part instantiated at the two-year
series (2010, 1), (2011, 3) with slope 2. -/
theorem sens_slope_spec_witness :
    sensSlope [2010, 2011] [1, 3] = 2 :=
  sens_slope_spec.2 [2010, 2011] [1, 3] (-4019) 2 rfl (by norm_num)
    (by norm_num)
    (by
      intro i hi
      simp only [List.length_cons, List.length_nil] at hi
      interval_cases i <;> norm_num)

end Modis
